import Mathlib

/-!
Verification of the Recipe Genie backend (`src/main.py`).

The external world (TheMealDB recipe API, the LibreTranslate endpoint and
the document store) is modelled as an oracle, `Env`, mapping each outgoing
request to its outcome.  Every repository function that talks to the
outside is embedded as a Lean function over `Env`; alongside its value it
returns the list of external calls it issued (`CallEvent`), so that claims
about which calls are made ("no translation call", "at most 12 lookups")
become statements about that trace.
-/

namespace RecipeGenie

/-- A full meal record returned by the recipe API.  The backend never
interprets its fields, so it is kept opaque behind a single payload. -/
structure Meal where
  payload : String
deriving DecidableEq, Repr

/-- A lightweight candidate from `filter.php`: the backend only ever reads
its `idMeal` field, which may be absent (`none`) or empty (`some ""`),
both falsy in the Python `if not mid` test. -/
structure LightMeal where
  idMeal : Option String
deriving DecidableEq, Repr

/-- JSON body of a `search.php` response: `data.get("meals")` may be a
list or `null`/absent (`none`). -/
structure SearchJson where
  meals : Option (List Meal)
deriving DecidableEq, Repr

/-- JSON body of a `filter.php` response. -/
structure FilterJson where
  meals : Option (List LightMeal)
deriving DecidableEq, Repr

/-- JSON body of a `lookup.php` response. -/
structure LookupJson where
  meals : Option (List Meal)
deriving DecidableEq, Repr

/-- Outcome of one POST to the LibreTranslate URL.  `netFail` covers a
raised request exception and a malformed JSON body (both land in the
`except` clauses of the Python code); `httpResp` carries the status code,
the raw response text (`resp.text`) and `out.get("translatedText", "")`. -/
inductive TranslateOutcome where
  | netFail (msg : String)
  | httpResp (status : Nat) (body : String) (translatedText : String)
deriving DecidableEq, Repr

/-- The external world: one entry per outgoing HTTP request shape.
`.error` is a raised exception (network failure, `raise_for_status`, or
JSON decode error). -/
structure Env where
  searchHttp : String → Except String SearchJson
  filterHttp : String → Except String FilterJson
  lookupHttp : String → Except String LookupJson
  translateHttp : String → String → TranslateOutcome

/-- One recorded outgoing call. -/
inductive CallEvent where
  | searchCall (term : String)
  | translateCall (text : String)
  | filterCall (ingredient : String)
  | lookupCall (mealId : String)
deriving DecidableEq, Repr

/-- True on the lookup-by-id events of a trace. -/
def CallEvent.isLookup : CallEvent → Bool
  | .lookupCall _ => true
  | _ => false

/-- Number of `lookup.php` enrichment calls in a trace. -/
def countLookups (tr : List CallEvent) : Nat :=
  tr.countP CallEvent.isLookup

/-- Python `str.strip()` on the translated text: drop leading and
trailing whitespace.  Written with structural recursion over the
character list so that concrete inputs evaluate. -/
def pyStrip (s : String) : String :=
  ⟨((s.data.dropWhile Char.isWhitespace).reverse.dropWhile
      Char.isWhitespace).reverse⟩

/-- Python `str.lower()` on the query strings this backend compares:
lowercase each character.  Written over the character list so that
concrete inputs evaluate. -/
def asciiLower (s : String) : String :=
  ⟨s.data.map Char.toLower⟩

/-- Embedding of `_translate_to_en` (src/main.py lines 73-88): on any
failure or non-200 status return the input; on 200 return the stripped
`translatedText`, falling back to the input when it strips to empty. -/
def translate_to_en (env : Env) (text : String) : String :=
  match env.translateHttp text "en" with
  | .netFail _ => text
  | .httpResp status _ translatedText =>
    if status ≠ 200 then text
    else
      let translated := pyStrip translatedText
      if translated = "" then text else translated

/-- Decidable marker that the translation request for `q` (target "en")
failed: either the request raised or the response status was not 200. -/
def translationFailed (env : Env) (q : String) : Bool :=
  match env.translateHttp q "en" with
  | .netFail _ => true
  | .httpResp status _ _ => status != 200

/-- Embedding of `_mealdb_search_by_name` (lines 91-95): propagate a
request/decode failure, otherwise normalise a `null` meal list to `[]`. -/
def mealdb_search_by_name (env : Env) (term : String) :
    Except String (List Meal) × List CallEvent :=
  match env.searchHttp term with
  | .error e => (.error e, [.searchCall term])
  | .ok data => (.ok (data.meals.getD []), [.searchCall term])

/-- One iteration of the enrichment loop body (lines 105-116): skip a
candidate with a falsy `idMeal` without issuing a call; otherwise look the
id up, absorbing any failure, and keep the first meal of a truthy
`dj["meals"]`. -/
def enrichOne (env : Env) (m : LightMeal) : Option Meal × List CallEvent :=
  match m.idMeal with
  | none => (none, [])
  | some mid =>
    if mid = "" then (none, [])
    else
      match env.lookupHttp mid with
      | .error _ => (none, [.lookupCall mid])
      | .ok dj =>
        match dj.meals with
        | some (first :: _) => (some first, [.lookupCall mid])
        | _ => (none, [.lookupCall mid])

/-- Value component of `enrichOne`. -/
def enrichPure (env : Env) (m : LightMeal) : Option Meal :=
  (enrichOne env m).1

/-- The stage-3 enrichment loop over a candidate list, collecting the
successfully enriched meals in order and the issued lookup calls. -/
def enrichAll (env : Env) : List LightMeal → List Meal × List CallEvent
  | [] => ([], [])
  | m :: rest =>
    let r := enrichOne env m
    let rs := enrichAll env rest
    ((match r.1 with
      | none => rs.1
      | some meal => meal :: rs.1), r.2 ++ rs.2)

/-- Embedding of `_mealdb_filter_by_ingredient` (lines 98-117): a failure
of the `filter.php` request itself propagates; otherwise the candidate
list is capped at its first 12 entries and enriched one by one. -/
def mealdb_filter_by_ingredient (env : Env) (ingredient : String) :
    Except String (List Meal) × List CallEvent :=
  match env.filterHttp ingredient with
  | .error e => (.error e, [.filterCall ingredient])
  | .ok data =>
    let enr := enrichAll env ((data.meals.getD []).take 12)
    (.ok enr.1, .filterCall ingredient :: enr.2)

/-- Outcome of the `/api/recipes/search` endpoint: a JSON result or a
raised `HTTPException`. -/
inductive SearchOutcome where
  | ok (count : Nat) (meals : List Meal)
  | httpError (status : Nat) (detail : String)
deriving DecidableEq, Repr

/-- Detail string of the `HTTPException` raised by `search_recipes`. -/
def searchFailMsg (e : String) : String :=
  "Recipe search failed: " ++ e

/-- Stage 2 of the search pipeline (lines 126-130): translate `q` to
English and retry the name search only when the translation is non-empty
and differs case-insensitively from `q`. -/
def search_recipes_stage2 (env : Env) (q : String) :
    Except String (List Meal) × List CallEvent :=
  let q_en := translate_to_en env q
  if q_en ≠ "" ∧ asciiLower q_en ≠ asciiLower q then
    let r := mealdb_search_by_name env q_en
    (r.1, .translateCall q :: r.2)
  else (.ok [], [.translateCall q])

/-- Stage 3 of the search pipeline (lines 132-135): translate `q` again
and use the result as an ingredient filter. -/
def search_recipes_stage3 (env : Env) (q : String) :
    Except String (List Meal) × List CallEvent :=
  let ingredient := translate_to_en env q
  let r := mealdb_filter_by_ingredient env ingredient
  (r.1, .translateCall q :: r.2)

/-- Embedding of the `search_recipes` endpoint (lines 120-143): direct
name search, then translate-and-retry, then ingredient fallback; any
exception escaping a stage becomes a 502 `HTTPException`. -/
def search_recipes (env : Env) (q : String) :
    SearchOutcome × List CallEvent :=
  match mealdb_search_by_name env q with
  | (.error e, tr1) => (.httpError 502 (searchFailMsg e), tr1)
  | (.ok meals0, tr1) =>
    match (if meals0.isEmpty then search_recipes_stage2 env q
           else (.ok meals0, [])) with
    | (.error e, tr2) => (.httpError 502 (searchFailMsg e), tr1 ++ tr2)
    | (.ok meals1, tr2) =>
      match (if meals1.isEmpty then search_recipes_stage3 env q
             else (.ok meals1, [])) with
      | (.error e, tr3) =>
        (.httpError 502 (searchFailMsg e), tr1 ++ tr2 ++ tr3)
      | (.ok meals2, tr3) =>
        (.ok meals2.length meals2, tr1 ++ tr2 ++ tr3)

/-- Outcome of the `/api/translate` endpoint. -/
inductive TranslateEndpoint where
  | ok (translated : String)
  | httpError (status : Nat) (detail : String)
deriving DecidableEq, Repr

/-- Python slicing `resp.text[:120]`: the first `n` characters of a
string, written over the character list so that concrete inputs
evaluate. -/
def pyTake (s : String) (n : Nat) : String :=
  ⟨s.data.take n⟩

/-- Embedding of the `translate_text` endpoint (lines 189-208): a raised
request/decode exception becomes a 502; a non-200 upstream response is
re-raised with the upstream status code and the first 120 characters of
its body; a 200 response returns `translatedText` unmodified. -/
def translate_text (env : Env) (text target : String) : TranslateEndpoint :=
  match env.translateHttp text target with
  | .netFail msg => .httpError 502 ("Translation service failed: " ++ msg)
  | .httpResp status body translatedText =>
    if status ≠ 200 then
      .httpError status ("Translation error: " ++ pyTake body 120)
    else .ok translatedText

/-- Request body of `POST /api/favorites` (`FavoriteRecipeIn`, lines
26-31). -/
structure FavoriteRecipeIn where
  meal_id : String
  title : String
  thumbnail : Option String
  category : Option String
  area : Option String
deriving DecidableEq, Repr

/-- Modelled from the spec: the document store module (`database.py`,
imported at line 9 but absent from the sources) holds the favorites
collection; each stored document carries its store-assigned id alongside
the persisted fields. -/
structure Store where
  recipefavorite : List (String × FavoriteRecipeIn)
  nextOid : Nat
deriving DecidableEq, Repr

/-- Modelled from the spec: `createDocument(collection, doc) -> id`
persists the document verbatim and returns a fresh store-assigned id. -/
def create_document (s : Store) (doc : FavoriteRecipeIn) : String × Store :=
  let oid := "oid-" ++ toString s.nextOid
  (oid, ⟨s.recipefavorite ++ [(oid, doc)], s.nextOid + 1⟩)

/-- Modelled from the spec: `getDocuments(collection, filter, limit)`
returns up to `limit` documents; the empty filter used by the endpoint
matches every document. -/
def get_documents (s : Store) (limit : Nat) :
    List (String × FavoriteRecipeIn) :=
  s.recipefavorite.take limit

/-- Response body of `POST /api/favorites`. -/
structure AddFavoriteResp where
  ok : Bool
  id : String
deriving DecidableEq, Repr

/-- Embedding of the `add_favorite` endpoint (lines 167-173): persist the
payload and answer with the new id. -/
def add_favorite (s : Store) (payload : FavoriteRecipeIn) :
    AddFavoriteResp × Store :=
  let r := create_document s payload
  (⟨true, r.1⟩, r.2)

/-- One item of the `GET /api/favorites` response, after the endpoint
renames the store id field to `id` (lines 181-183). -/
structure FavoriteItemOut where
  id : String
  meal_id : String
  title : String
  thumbnail : Option String
  category : Option String
  area : Option String
deriving DecidableEq, Repr

/-- Embedding of the `list_favorites` endpoint (lines 176-186). -/
def list_favorites (s : Store) (limit : Nat) : List FavoriteItemOut :=
  (get_documents s limit).map fun p =>
    ⟨p.1, p.2.meal_id, p.2.title, p.2.thumbnail, p.2.category, p.2.area⟩

/-! ### Helper lemmas about the stage-3 enrichment loop -/

lemma enrichAll_fst (env : Env) (l : List LightMeal) :
    (enrichAll env l).1 = l.filterMap (enrichPure env) := by
  induction l with
  | nil => rfl
  | cons m rest ih =>
    simp only [enrichAll, List.filterMap_cons, enrichPure]
    cases h : (enrichOne env m).1 with
    | none => simpa [h] using ih
    | some meal => simpa [h] using ih

lemma enrichOne_trace (env : Env) (m : LightMeal) :
    (enrichOne env m).2 = [] ∨
      ∃ mid, m.idMeal = some mid ∧
        (enrichOne env m).2 = [CallEvent.lookupCall mid] := by
  unfold enrichOne
  cases h : m.idMeal with
  | none => simp
  | some mid =>
    by_cases hmid : mid = ""
    · simp [hmid]
    · right
      refine ⟨mid, rfl, ?_⟩
      simp only [hmid, if_neg, ite_false]
      cases env.lookupHttp mid with
      | error e => simp
      | ok dj =>
        cases hdj : dj.meals with
        | none => simp [hdj]
        | some ml => cases ml <;> simp [hdj]

lemma enrichAll_trace_mem (env : Env) (l : List LightMeal) (e : CallEvent)
    (he : e ∈ (enrichAll env l).2) :
    ∃ m ∈ l, ∃ mid, m.idMeal = some mid ∧ e = CallEvent.lookupCall mid := by
  induction l with
  | nil => simp [enrichAll] at he
  | cons m rest ih =>
    simp only [enrichAll, List.mem_append] at he
    rcases he with he | he
    · rcases enrichOne_trace env m with h0 | ⟨mid, hmid, h0⟩
      · rw [h0] at he; simp at he
      · rw [h0] at he
        simp only [List.mem_singleton] at he
        exact ⟨m, List.mem_cons_self m rest, mid, hmid, he⟩
    · obtain ⟨m', hm', mid, hmid, hmide⟩ := ih he
      exact ⟨m', List.mem_cons_of_mem m hm', mid, hmid, hmide⟩

lemma countLookups_enrichAll_le (env : Env) (l : List LightMeal) :
    countLookups (enrichAll env l).2 ≤ l.length := by
  induction l with
  | nil => simp [enrichAll, countLookups]
  | cons m rest ih =>
    have hone : countLookups (enrichOne env m).2 ≤ 1 := by
      rcases enrichOne_trace env m with h0 | ⟨mid, _, h0⟩ <;>
        simp [h0, countLookups, List.countP_cons, CallEvent.isLookup]
    calc countLookups (enrichAll env (m :: rest)).2
        = countLookups (enrichOne env m).2 + countLookups (enrichAll env rest).2 := by
          simp [enrichAll, countLookups, List.countP_append]
      _ ≤ 1 + rest.length := Nat.add_le_add hone ih
      _ = (m :: rest).length := by simp [Nat.add_comm]

/-! ### Helper lemmas about the search pipeline -/

lemma stage2_skipped (env : Env) (q : String)
    (hq : translate_to_en env q = "" ∨
          asciiLower (translate_to_en env q) = asciiLower q) :
    search_recipes_stage2 env q = (.ok [], [.translateCall q]) := by
  unfold search_recipes_stage2
  rw [if_neg]
  rintro ⟨hne, hdiff⟩
  rcases hq with h | h
  · exact hne h
  · exact hdiff h

lemma stage2_run (env : Env) (q : String)
    (hne : translate_to_en env q ≠ "")
    (hdiff : asciiLower (translate_to_en env q) ≠ asciiLower q) :
    search_recipes_stage2 env q =
      ((mealdb_search_by_name env (translate_to_en env q)).1,
       .translateCall q ::
         (mealdb_search_by_name env (translate_to_en env q)).2) := by
  unfold search_recipes_stage2
  rw [if_pos ⟨hne, hdiff⟩]

lemma stage3_eq (env : Env) (q : String) :
    search_recipes_stage3 env q =
      ((mealdb_filter_by_ingredient env (translate_to_en env q)).1,
       .translateCall q ::
         (mealdb_filter_by_ingredient env (translate_to_en env q)).2) := rfl

lemma search_recipes_stage1_hit (env : Env) (q : String) (data : SearchJson)
    (ms : List Meal) (h1 : env.searchHttp q = Except.ok data)
    (h2 : data.meals.getD [] = ms) (h3 : ms ≠ []) :
    search_recipes env q = (.ok ms.length ms, [.searchCall q]) := by
  have hemp : ms.isEmpty = false := by
    cases ms with
    | nil => exact absurd rfl h3
    | cons a t => rfl
  simp [search_recipes, mealdb_search_by_name, h1, h2, hemp]

lemma search_recipes_via_stage2_ok (env : Env) (q : String) (data : SearchJson)
    (ms : List Meal) (tr2 : List CallEvent)
    (h1 : env.searchHttp q = Except.ok data) (h2 : data.meals.getD [] = [])
    (hs2 : search_recipes_stage2 env q = (.ok ms, tr2)) (hne : ms ≠ []) :
    search_recipes env q = (.ok ms.length ms, .searchCall q :: tr2) := by
  have hemp : ms.isEmpty = false := by
    cases ms with
    | nil => exact absurd rfl hne
    | cons a t => rfl
  simp [search_recipes, mealdb_search_by_name, h1, h2, hs2, hemp]

lemma search_recipes_via_stage3 (env : Env) (q : String) (data : SearchJson)
    (tr2 : List CallEvent)
    (h1 : env.searchHttp q = Except.ok data) (h2 : data.meals.getD [] = [])
    (hs2 : search_recipes_stage2 env q = (.ok [], tr2)) :
    search_recipes env q =
      (match search_recipes_stage3 env q with
       | (.error e, tr3) =>
         (.httpError 502 (searchFailMsg e), .searchCall q :: (tr2 ++ tr3))
       | (.ok meals2, tr3) =>
         (.ok meals2.length meals2, .searchCall q :: (tr2 ++ tr3))) := by
  simp only [search_recipes, mealdb_search_by_name, h1, h2, hs2,
    List.isEmpty_nil, if_true]
  rcases h3 : search_recipes_stage3 env q with ⟨v3, tr3⟩
  cases v3 <;> simp

/-! ### Claims about the search pipeline -/

/-- C1: when the direct name search returns at least one meal,
`search_recipes` returns exactly those meals and the only external call of
the whole invocation is that single name search: no translation call and
no ingredient-filter call is issued, so stages 2 and 3 are never
entered. -/
theorem C1_direct_search_terminal (env : Env) (q : String) (data : SearchJson)
    (ms : List Meal) (h1 : env.searchHttp q = Except.ok data)
    (h2 : data.meals.getD [] = ms) (h3 : ms ≠ []) :
    search_recipes env q = (.ok ms.length ms, [.searchCall q]) ∧
    (∀ t, CallEvent.translateCall t ∉ (search_recipes env q).2) ∧
    (∀ i, CallEvent.filterCall i ∉ (search_recipes env q).2) := by
  have heq := search_recipes_stage1_hit env q data ms h1 h2 h3
  refine ⟨heq, ?_, ?_⟩ <;> intro x <;> simp [heq]

/-- C6: every successful `search_recipes` response satisfies
`count = meals.length`. -/
theorem C6_count_matches_meals (env : Env) (q : String) (c : Nat)
    (ms : List Meal) (h : (search_recipes env q).1 = .ok c ms) :
    c = ms.length := by
  unfold search_recipes at h
  split at h
  · simp at h
  · split at h
    · simp at h
    · split at h
      · simp at h
      · simp only [SearchOutcome.ok.injEq] at h
        obtain ⟨hc, hm⟩ := h
        rw [← hc, ← hm]

/-- C10: for a non-empty input the `_translate_to_en` helper never returns
the empty string, and when the translation service answers 200 with a
`translatedText` that strips to empty, the helper returns the original
input unchanged. -/
theorem C10_translate_nonempty (env : Env) (text : String)
    (hne : text ≠ "") :
    translate_to_en env text ≠ "" ∧
    (∀ status body tt, env.translateHttp text "en" =
        .httpResp status body tt → status = 200 → pyStrip tt = "" →
        translate_to_en env text = text) := by
  constructor
  · unfold translate_to_en
    cases h : env.translateHttp text "en" with
    | netFail msg => exact hne
    | httpResp status body tt =>
      by_cases hs : status = 200
      · simp only [hs, ne_eq, not_true_eq_false, if_false]
        by_cases ht : pyStrip tt = ""
        · simpa [ht] using hne
        · simp [ht]
      · simpa [hs] using hne
  · intro status body tt h h200 htrim
    unfold translate_to_en
    rw [h]
    simp [h200, htrim]

lemma translate_to_en_of_failed (env : Env) (q : String)
    (hfail : translationFailed env q = true) :
    translate_to_en env q = q := by
  unfold translationFailed at hfail
  unfold translate_to_en
  cases h : env.translateHttp q "en" with
  | netFail msg => rfl
  | httpResp status body tt =>
    rw [h] at hfail
    have hs : status ≠ 200 := by simpa using hfail
    simp [hs]

/-- C5: a failed translation request (raised exception or non-200 status)
makes `_translate_to_en` fall back to the original text, and a search that
then returns an error can only be blamed on the recipe API itself (the
name-search request or the ingredient-filter request), never on the
translation failure. -/
theorem C5_translation_failure_absorbed (env : Env) (q : String)
    (hfail : translationFailed env q = true) :
    translate_to_en env q = q ∧
    ∀ s d, (search_recipes env q).1 = .httpError s d →
      (∃ e, env.searchHttp q = .error e) ∨
      (∃ e, env.filterHttp q = .error e) := by
  have hq : translate_to_en env q = q := translate_to_en_of_failed env q hfail
  refine ⟨hq, ?_⟩
  intro s d h
  cases h1 : env.searchHttp q with
  | error e => exact Or.inl ⟨e, rfl⟩
  | ok data =>
    cases hm0 : data.meals.getD [] with
    | cons a t =>
      have heq := search_recipes_stage1_hit env q data (a :: t) h1 hm0
        (by simp)
      rw [heq] at h
      simp at h
    | nil =>
      have hs2 : search_recipes_stage2 env q = (.ok [], [.translateCall q]) :=
        stage2_skipped env q (Or.inr (by rw [hq]))
      have heq := search_recipes_via_stage3 env q data [.translateCall q]
        h1 hm0 hs2
      cases hf : env.filterHttp q with
      | error e => exact Or.inr ⟨e, rfl⟩
      | ok fdata =>
        have h3 : search_recipes_stage3 env q =
            (.ok (enrichAll env ((fdata.meals.getD []).take 12)).1,
             .translateCall q :: .filterCall q ::
               (enrichAll env ((fdata.meals.getD []).take 12)).2) := by
          rw [stage3_eq, hq]
          simp [mealdb_filter_by_ingredient, hf]
        rw [heq, h3] at h
        simp at h

/-- C2: when the direct search is empty, the translation is non-empty and
differs case-insensitively from `q`, and the name search on the translated
text is non-empty, `search_recipes` returns that second-stage result;
moreover the second name-search call is issued only under that condition:
when it fails, every name-search call in the trace is for `q` itself. -/
theorem C2_translated_retry (env : Env) (q : String) (data : SearchJson)
    (h1 : env.searchHttp q = Except.ok data)
    (h2 : data.meals.getD [] = []) :
    (∀ d2 ms, translate_to_en env q ≠ "" →
       asciiLower (translate_to_en env q) ≠ asciiLower q →
       env.searchHttp (translate_to_en env q) = Except.ok d2 →
       d2.meals.getD [] = ms → ms ≠ [] →
       (search_recipes env q).1 = .ok ms.length ms) ∧
    ((translate_to_en env q = "" ∨
        asciiLower (translate_to_en env q) = asciiLower q) →
       ∀ t, CallEvent.searchCall t ∈ (search_recipes env q).2 → t = q) := by
  constructor
  · intro d2 ms hne hdiff hs2 hms hmsne
    have hstage2 : search_recipes_stage2 env q =
        (.ok ms, [.translateCall q, .searchCall (translate_to_en env q)]) := by
      rw [stage2_run env q hne hdiff]
      simp [mealdb_search_by_name, hs2, hms]
    have heq := search_recipes_via_stage2_ok env q data ms
      [.translateCall q, .searchCall (translate_to_en env q)]
      h1 h2 hstage2 hmsne
    rw [heq]
  · intro hcond t ht
    have hs2 : search_recipes_stage2 env q = (.ok [], [.translateCall q]) :=
      stage2_skipped env q hcond
    have heq := search_recipes_via_stage3 env q data [.translateCall q]
      h1 h2 hs2
    rw [heq] at ht
    cases hff : env.filterHttp (translate_to_en env q) with
    | error e =>
      have h3 : search_recipes_stage3 env q =
          (.error e,
           [.translateCall q, .filterCall (translate_to_en env q)]) := by
        rw [stage3_eq]
        simp [mealdb_filter_by_ingredient, hff]
      rw [h3] at ht
      simpa using ht
    | ok fdata =>
      have h3 : search_recipes_stage3 env q =
          (.ok (enrichAll env ((fdata.meals.getD []).take 12)).1,
           .translateCall q :: .filterCall (translate_to_en env q) ::
             (enrichAll env ((fdata.meals.getD []).take 12)).2) := by
        rw [stage3_eq]
        simp [mealdb_filter_by_ingredient, hff]
      rw [h3] at ht
      simp at ht
      rcases ht with ht | ht
      · exact ht
      · obtain ⟨m, _, mid, _, habs⟩ := enrichAll_trace_mem env _ _ ht
        exact CallEvent.noConfusion habs

/-- C3: when the ingredient filter succeeds, stage 3 issues at most 12
`lookup.php` enrichment calls, and every enrichment call targets the
`idMeal` of one of the first 12 candidates, however many candidates the
filter returned. -/
theorem C3_enrichment_capped (env : Env) (ingredient : String)
    (data : FilterJson) (h : env.filterHttp ingredient = Except.ok data) :
    countLookups (mealdb_filter_by_ingredient env ingredient).2 ≤ 12 ∧
    ∀ mid, CallEvent.lookupCall mid ∈
        (mealdb_filter_by_ingredient env ingredient).2 →
      ∃ m ∈ (data.meals.getD []).take 12, m.idMeal = some mid := by
  have heq : mealdb_filter_by_ingredient env ingredient =
      (.ok (enrichAll env ((data.meals.getD []).take 12)).1,
       .filterCall ingredient ::
         (enrichAll env ((data.meals.getD []).take 12)).2) := by
    simp [mealdb_filter_by_ingredient, h]
  constructor
  · rw [heq]
    have hcnt := countLookups_enrichAll_le env ((data.meals.getD []).take 12)
    have hlen : ((data.meals.getD []).take 12).length ≤ 12 :=
      (List.length_take 12 (data.meals.getD [])).le.trans (min_le_left _ _)
    calc countLookups (.filterCall ingredient ::
          (enrichAll env ((data.meals.getD []).take 12)).2)
        = countLookups (enrichAll env ((data.meals.getD []).take 12)).2 := by
          simp [countLookups, List.countP_cons, CallEvent.isLookup]
      _ ≤ 12 := hcnt.trans hlen
  · intro mid hmem
    rw [heq] at hmem
    simp only [List.mem_cons] at hmem
    rcases hmem with hmem | hmem
    · exact CallEvent.noConfusion hmem
    · obtain ⟨m, hm, mid', hmid', heqc⟩ := enrichAll_trace_mem env _ _ hmem
      obtain rfl : mid = mid' := by injection heqc
      exact ⟨m, hm, hmid'⟩

/-- C4: when the ingredient filter succeeds, the request never errors
(per-item lookup failures are absorbed), and the returned list is exactly
the successful enrichments of the first 12 candidates, in candidate
order: every candidate whose lookup succeeds contributes its detail and a
failed candidate is merely dropped. -/
theorem C4_partial_enrichment (env : Env) (ingredient : String)
    (data : FilterJson) (h : env.filterHttp ingredient = Except.ok data) :
    (mealdb_filter_by_ingredient env ingredient).1 =
      .ok (((data.meals.getD []).take 12).filterMap (enrichPure env)) ∧
    ∀ m ∈ (data.meals.getD []).take 12, ∀ d, enrichPure env m = some d →
      d ∈ ((data.meals.getD []).take 12).filterMap (enrichPure env) := by
  constructor
  · simp [mealdb_filter_by_ingredient, h, enrichAll_fst]
  · intro m hm d hd
    exact List.mem_filterMap.mpr ⟨m, hm, hd⟩

/-- C7 (amended): a failure of the stage-3 `filter.php` request itself is
not absorbed: whenever stages 1 and 2 produce no meals and the ingredient
filter request errors, `search_recipes` surfaces a 502 gateway error to
the caller, exactly like a stage-1/2 search failure.  Only translation
failures and stage-3 per-item lookup failures are absorbed. -/
theorem C7_filter_failure_propagates (env : Env) (q e : String)
    (data : SearchJson)
    (h1 : env.searchHttp q = Except.ok data) (h2 : data.meals.getD [] = [])
    (h3 : translate_to_en env q = "" ∨
          asciiLower (translate_to_en env q) = asciiLower q ∨
          (∃ d2, env.searchHttp (translate_to_en env q) = Except.ok d2 ∧
                 d2.meals.getD [] = []))
    (h4 : env.filterHttp (translate_to_en env q) = .error e) :
    (search_recipes env q).1 = .httpError 502 (searchFailMsg e) := by
  have hs2 : ∃ tr2, search_recipes_stage2 env q = (.ok [], tr2) := by
    by_cases hc : translate_to_en env q ≠ "" ∧
        asciiLower (translate_to_en env q) ≠ asciiLower q
    · rcases h3 with h | h | ⟨d2, hd2, hd2e⟩
      · exact absurd h hc.1
      · exact absurd h hc.2
      · refine ⟨[.translateCall q, .searchCall (translate_to_en env q)], ?_⟩
        rw [stage2_run env q hc.1 hc.2]
        simp [mealdb_search_by_name, hd2, hd2e]
    · rw [not_and_or] at hc
      refine ⟨[.translateCall q], stage2_skipped env q ?_⟩
      rcases hc with hc | hc
      · exact Or.inl (not_not.mp hc)
      · exact Or.inr (not_not.mp hc)
  obtain ⟨tr2, hs2⟩ := hs2
  have heq := search_recipes_via_stage3 env q data tr2 h1 h2 hs2
  have h3eq : search_recipes_stage3 env q =
      (.error e, [.translateCall q, .filterCall (translate_to_en env q)]) := by
    rw [stage3_eq]
    simp [mealdb_filter_by_ingredient, h4]
  rw [heq, h3eq]

/-- C8 (amended): on `/api/translate`, an unreachable translation service
maps to a 502 with a descriptive message, while a non-200 upstream
response is re-raised with the upstream status code itself (not a
502-class code) and the first 120 characters of the upstream body. -/
theorem C8_translate_error_status (env : Env) (text target : String) :
    (∀ msg, env.translateHttp text target = .netFail msg →
      translate_text env text target =
        .httpError 502 ("Translation service failed: " ++ msg)) ∧
    (∀ status body tt,
      env.translateHttp text target = .httpResp status body tt →
      status ≠ 200 →
      translate_text env text target =
        .httpError status ("Translation error: " ++ pyTake body 120)) := by
  constructor
  · intro msg h
    unfold translate_text
    rw [h]
  · intro status body tt h hs
    unfold translate_text
    rw [h]
    simp [hs]

/-- Payload of the C9 round-trip scenario. -/
def teriyakiPayload : FavoriteRecipeIn :=
  ⟨"52772", "Teriyaki Chicken", none, none, none⟩

/-- A store with no favorites yet. -/
def emptyStore : Store := ⟨[], 0⟩

/-- C9: posting the Teriyaki Chicken favorite succeeds with `ok = true`
and a populated id, and a subsequent list request returns exactly one
item, carrying that id and the meal id `"52772"`. -/
theorem C9_favorites_roundtrip :
    (add_favorite emptyStore teriyakiPayload).1.ok = true ∧
    (add_favorite emptyStore teriyakiPayload).1.id ≠ "" ∧
    (list_favorites (add_favorite emptyStore teriyakiPayload).2 50).length
      = 1 ∧
    ∃ item ∈ list_favorites (add_favorite emptyStore teriyakiPayload).2 50,
      item.id = (add_favorite emptyStore teriyakiPayload).1.id ∧
      item.meal_id = "52772" := by
  refine ⟨rfl, by decide, rfl, ?_⟩
  exact ⟨⟨"oid-0", "52772", "Teriyaki Chicken", none, none, none⟩,
    by decide, by decide, by decide⟩

/-! ### Concrete environments for witnesses and counterexamples -/

/-- An environment where every search and filter comes back empty, the
lookup endpoint is down and the translation service is unreachable. -/
def baseEnv : Env where
  searchHttp := fun _ => .ok ⟨some []⟩
  filterHttp := fun _ => .ok ⟨some []⟩
  lookupHttp := fun _ => .error "lookup down"
  translateHttp := fun _ _ => .netFail "translate down"

/-- Direct search for "pasta" hits. -/
def envHit : Env :=
  { baseEnv with
    searchHttp := fun t =>
      if t = "pasta" then .ok ⟨some [⟨"pasta meal"⟩]⟩ else .ok ⟨some []⟩ }

/-- Direct search misses, translation answers "chicken", and the search
for "chicken" hits. -/
def envTranslated : Env :=
  { baseEnv with
    searchHttp := fun t =>
      if t = "chicken" then .ok ⟨some [⟨"chicken meal"⟩]⟩
      else .ok ⟨some []⟩
    translateHttp := fun _ _ => .httpResp 200 "" "chicken" }

/-- Thirteen lightweight filter candidates, one more than the cap. -/
def cands13 : List LightMeal :=
  [⟨some "1"⟩, ⟨some "2"⟩, ⟨some "3"⟩, ⟨some "4"⟩, ⟨some "5"⟩,
   ⟨some "6"⟩, ⟨some "7"⟩, ⟨some "8"⟩, ⟨some "9"⟩, ⟨some "10"⟩,
   ⟨some "11"⟩, ⟨some "12"⟩, ⟨some "13"⟩]

/-- Filter returns thirteen candidates and every lookup succeeds. -/
def envManyCands : Env :=
  { baseEnv with
    filterHttp := fun _ => .ok ⟨some cands13⟩
    lookupHttp := fun mid => .ok ⟨some [⟨"detail " ++ mid⟩]⟩ }

/-- Three filter candidates. -/
def cands3 : List LightMeal := [⟨some "1"⟩, ⟨some "2"⟩, ⟨some "3"⟩]

/-- Filter returns three candidates and the lookup of the middle one
fails. -/
def envFlaky : Env :=
  { baseEnv with
    filterHttp := fun _ => .ok ⟨some cands3⟩
    lookupHttp := fun mid =>
      if mid = "2" then .error "lookup down"
      else .ok ⟨some [⟨"detail " ++ mid⟩]⟩ }

/-- The stage-3 ingredient filter request itself fails. -/
def envFilterDown : Env :=
  { baseEnv with filterHttp := fun _ => .error "boom" }

/-- The translation service answers 404. -/
def envTranslate404 : Env :=
  { baseEnv with
    translateHttp := fun _ _ => .httpResp 404 "not found" "" }

/-- The translation service answers 200 with whitespace-only text. -/
def envBlankTranslation : Env :=
  { baseEnv with translateHttp := fun _ _ => .httpResp 200 "x" "   " }

/-- C7 counterexample: with the stage-3 filter request failing, the
search for "beef" surfaces a 502 gateway error instead of returning
best-effort data, so the stage-3 filter failure is not absorbed. -/
theorem C7_counterexample :
    (search_recipes envFilterDown "beef").1 =
      .httpError 502 (searchFailMsg "boom") ∧
    ¬ ∃ c ms, (search_recipes envFilterDown "beef").1 =
      SearchOutcome.ok c ms := by
  have hr : (search_recipes envFilterDown "beef").1 =
      .httpError 502 (searchFailMsg "boom") := by decide
  refine ⟨hr, ?_⟩
  rintro ⟨c, ms, h⟩
  exact SearchOutcome.noConfusion (hr.symm.trans h)

/-- C8 counterexample: a 404 from the translation service is echoed as a
404 response, which is neither 502 nor any 5xx status. -/
theorem C8_counterexample :
    translate_text envTranslate404 "hola" "fr" =
      .httpError 404 "Translation error: not found" ∧
    (404 : Nat) ≠ 502 ∧ ¬(500 ≤ (404 : Nat) ∧ (404 : Nat) ≤ 599) := by
  refine ⟨by decide, by decide, by decide⟩

/-! ### Witnesses -/

/-- Witness for C1: the "pasta" hit environment. -/
theorem C1_witness :
    envHit.searchHttp "pasta" = Except.ok ⟨some [⟨"pasta meal"⟩]⟩ ∧
    ([⟨"pasta meal"⟩] : List Meal) ≠ [] ∧
    search_recipes envHit "pasta" =
      (.ok 1 [⟨"pasta meal"⟩], [.searchCall "pasta"]) := by
  refine ⟨rfl, by decide, ?_⟩
  have h := (C1_direct_search_terminal envHit "pasta" ⟨some [⟨"pasta meal"⟩]⟩
    [⟨"pasta meal"⟩] rfl rfl (by decide)).1
  simpa using h

/-- Witness for C2: the "pollo" to "chicken" environment. -/
theorem C2_witness :
    envTranslated.searchHttp "pollo" = Except.ok ⟨some []⟩ ∧
    translate_to_en envTranslated "pollo" = "chicken" ∧
    (search_recipes envTranslated "pollo").1 = .ok 1 [⟨"chicken meal"⟩] := by
  refine ⟨rfl, by decide, ?_⟩
  have h := (C2_translated_retry envTranslated "pollo" ⟨some []⟩
    rfl rfl).1 ⟨some [⟨"chicken meal"⟩]⟩ [⟨"chicken meal"⟩]
    (by decide) (by decide) rfl rfl (by decide)
  simpa using h

/-- Witness for C3: thirteen candidates still yield at most 12 lookups. -/
theorem C3_witness :
    envManyCands.filterHttp "chicken" = Except.ok ⟨some cands13⟩ ∧
    countLookups (mealdb_filter_by_ingredient envManyCands "chicken").2
      ≤ 12 :=
  ⟨rfl, (C3_enrichment_capped envManyCands "chicken" ⟨some cands13⟩ rfl).1⟩

/-- Witness for C4: with the lookup of candidate "2" failing, the result
keeps exactly the enrichments of candidates "1" and "3", in order. -/
theorem C4_witness :
    envFlaky.filterHttp "beef" = Except.ok ⟨some cands3⟩ ∧
    (mealdb_filter_by_ingredient envFlaky "beef").1 =
      .ok ((((⟨some cands3⟩ : FilterJson).meals.getD []).take 12).filterMap
        (enrichPure envFlaky)) ∧
    (cands3.take 12).filterMap (enrichPure envFlaky) =
      [⟨"detail 1"⟩, ⟨"detail 3"⟩] := by
  refine ⟨rfl,
    (C4_partial_enrichment envFlaky "beef" ⟨some cands3⟩ rfl).1, by decide⟩

/-- Witness for C5: with the translation service unreachable, the helper
returns the query unchanged and the empty-world search still succeeds. -/
theorem C5_witness :
    translationFailed baseEnv "tomato" = true ∧
    translate_to_en baseEnv "tomato" = "tomato" ∧
    (search_recipes baseEnv "tomato").1 = .ok 0 [] := by
  refine ⟨rfl, (C5_translation_failure_absorbed baseEnv "tomato" rfl).1,
    by decide⟩

/-- Witness for C6: an all-stages-empty search returns the normal result
with `count = 0` and no meals. -/
theorem C6_witness :
    (search_recipes baseEnv "xyzxyzxyz").1 = .ok 0 [] ∧
    (0 : Nat) = ([] : List Meal).length :=
  ⟨by decide, C6_count_matches_meals baseEnv "xyzxyzxyz" 0 [] (by decide)⟩

/-- Witness for C7 (amended): the filter-down environment surfaces the
502. -/
theorem C7_witness :
    envFilterDown.searchHttp "beef" = Except.ok ⟨some []⟩ ∧
    envFilterDown.filterHttp (translate_to_en envFilterDown "beef") =
      .error "boom" ∧
    (search_recipes envFilterDown "beef").1 =
      .httpError 502 (searchFailMsg "boom") :=
  ⟨rfl, rfl, C7_filter_failure_propagates envFilterDown "beef" "boom"
    ⟨some []⟩ rfl rfl (Or.inr (Or.inl rfl)) rfl⟩

/-- Witness for C8 (amended): a network failure maps to 502, a 404 is
echoed as 404. -/
theorem C8_witness :
    baseEnv.translateHttp "hi" "fr" = .netFail "translate down" ∧
    translate_text baseEnv "hi" "fr" =
      .httpError 502 ("Translation service failed: " ++ "translate down") ∧
    envTranslate404.translateHttp "hola" "fr" =
      .httpResp 404 "not found" "" ∧
    translate_text envTranslate404 "hola" "fr" =
      .httpError 404 ("Translation error: " ++ pyTake "not found" 120) :=
  ⟨rfl, (C8_translate_error_status baseEnv "hi" "fr").1 "translate down" rfl,
   rfl, (C8_translate_error_status envTranslate404 "hola" "fr").2
     404 "not found" "" rfl (by decide)⟩

/-- Witness for C10: a whitespace-only 200 translation of "tomato" falls
back to "tomato", which is non-empty. -/
theorem C10_witness :
    ("tomato" : String) ≠ "" ∧
    translate_to_en envBlankTranslation "tomato" ≠ "" ∧
    translate_to_en envBlankTranslation "tomato" = "tomato" :=
  ⟨by decide, (C10_translate_nonempty envBlankTranslation "tomato"
      (by decide)).1,
   (C10_translate_nonempty envBlankTranslation "tomato" (by decide)).2
     200 "x" "   " rfl rfl (by decide)⟩

end RecipeGenie
